import Mathlib

/-!
Verification of the tryVoltSP provisioning scripts.

This file shallowly embeds the control logic of the Python scripts
`tryVoltSP.py`, `vwap/vwap_setup.py`, `vwap/voltsp_setup.py`,
`vwap/vwap_loadgen_setup.py` and `vwap/junk/voltdb_core_setuplat.py`.

Modelling conventions:
- A subprocess invocation is abstracted by its observable outcome
  (exit code, captured stdout/stderr), supplied as an input.
- The readiness polling loops (`while time.time() - start_time < timeout`)
  are modelled with a discrete clock: a poll is instantaneous and the
  clock advances by the fixed `time.sleep` interval at the end of each
  iteration.  The loop is written with a fuel argument that strictly
  dominates the number of iterations the timeout admits, so the fuel
  case is never reached on the entry values used by the scripts.
- `sys.exit(n)` and an uncaught exception are represented as explicit
  outcome constructors rather than by nontermination.
-/

namespace TryVoltSP

/-- Outcome of one iteration body of a readiness polling loop:
either `return True` now, or fall through to `time.sleep(s)` and retry,
or leave the loop abnormally (process exit / uncaught exception). -/
inductive IterAction where
  | done
  | retryAfter (sleepSeconds : Nat)
  | fatal (exitCode : Option Nat)
  deriving DecidableEq

/-- Result of a whole polling loop: `finished success polls` is a normal
return (`success` is the returned boolean, `polls` the number of status
polls performed); `aborted` is an abnormal termination of the process. -/
inductive LoopResult where
  | finished (success : Bool) (polls : Nat)
  | aborted (exitCode : Option Nat)
  deriving DecidableEq

/-- The shared wait-loop shape of the scripts:
`while time.time() - start_time < timeout_seconds: <body>; time.sleep(s)`,
returning `False` when the clock test fails and `True` from inside the
body.  `trace i` is the outcome of the `i`-th status poll. -/
def pollLoop {α : Type} (iter : α → IterAction) (trace : Nat → α) (timeout : Nat) :
    Nat → Nat → Nat → LoopResult
  | 0, i, _elapsed => .finished false i
  | fuel + 1, i, elapsed =>
    if elapsed < timeout then
      match iter (trace i) with
      | .done => .finished true (i + 1)
      | .retryAfter s => pollLoop iter trace timeout fuel (i + 1) (elapsed + s)
      | .fatal c => .aborted c
    else .finished false i

/-! ### tryVoltSP.py: wait_for_gke_cluster_ready -/

/-- Outcome of one `gcloud container clusters describe ... --format=json`
poll in `wait_for_gke_cluster_ready`: a successful describe whose JSON
parsed (carrying the extracted `status` field), a `CalledProcessError`,
a `json.JSONDecodeError`, or any other exception. -/
inductive GkePoll where
  | ok (status : String)
  | cmdError (stderr : String)
  | jsonError
  | otherError (msg : String)
  deriving DecidableEq

/-- Body of one iteration of `wait_for_gke_cluster_ready` (tryVoltSP.py
lines 59-83): return `True` on status RUNNING; print and retry after 30
seconds on any other status and on every exception. -/
def gkeIter : GkePoll → IterAction
  | .ok status => if status = "RUNNING" then .done else .retryAfter 30
  | .cmdError _ => .retryAfter 30
  | .jsonError => .retryAfter 30
  | .otherError _ => .retryAfter 30

/-- `wait_for_gke_cluster_ready` with its default `timeout_seconds=900`,
as called from `main` (tryVoltSP.py lines 128 and 158).  The timeout of
900 s with a 30 s sleep admits exactly 30 polls; fuel 31 dominates it. -/
def wait_for_gke_cluster_ready (trace : Nat → GkePoll) : LoopResult :=
  pollLoop gkeIter trace 900 31 0 0

/-! ### vwap_setup.py: wait_for_redpanda_pods_ready -/

/-- One entry of a pod `status.conditions` list (fields `type`/`status`). -/
structure PodCondition where
  type : String
  status : String
  deriving DecidableEq

/-- A pod as consumed by the wait loop: its `status.conditions` list.
The `kubectl get pods` query already field-selects `status.phase=Running`,
so every listed pod is in phase Running. -/
structure Pod where
  conditions : List PodCondition
  deriving DecidableEq

/-- vwap_setup.py lines 89-93: a pod is ready when some condition has
`type == "Ready"` and `status == "True"`. -/
def pod_is_ready (p : Pod) : Bool :=
  p.conditions.any fun c => c.type = "Ready" && c.status = "True"

/-- vwap_setup.py lines 86-96: count of ready pods among the items. -/
def count_ready_pods (items : List Pod) : Nat :=
  (items.filter pod_is_ready).length

/-- vwap_setup.py line 73: `total_expected_pods = 3`
(comment in source: Redpanda statefulset.replicas=3, matching the
`--set statefulset.replicas=3` of the install command on line 182). -/
def total_expected_pods : Nat := 3

/-- Outcome of one `kubectl get pods ... -o json` poll in
`wait_for_redpanda_pods_ready`. -/
inductive RedpandaPoll where
  | ok (items : List Pod)
  | cmdError (stderr : String)
  | jsonError
  | otherError (msg : String)
  deriving DecidableEq

/-- Body of one iteration of `wait_for_redpanda_pods_ready`
(vwap_setup.py lines 75-111): return `True` when the ready-pod count
equals `total_expected_pods`; otherwise, and on every exception, print
and retry after 10 seconds. -/
def redpandaIter : RedpandaPoll → IterAction
  | .ok items =>
    if count_ready_pods items = total_expected_pods then .done else .retryAfter 10
  | .cmdError _ => .retryAfter 10
  | .jsonError => .retryAfter 10
  | .otherError _ => .retryAfter 10

/-- `wait_for_redpanda_pods_ready` with its default `timeout_seconds=600`,
as called from `main` (vwap_setup.py line 215).  600 s at a 10 s sleep
admits exactly 60 polls; fuel 61 dominates it. -/
def wait_for_redpanda_pods_ready (trace : Nat → RedpandaPoll) : LoopResult :=
  pollLoop redpandaIter trace 600 61 0 0

/-! ### voltsp_setup.py: wait_for_voltsp_deployment_ready, and
    junk/voltdb_core_setuplat.py: wait_for_voltdb_cluster_ready -/

/-- The fields the deployment/statefulset waits extract from the polled
JSON: `status.readyReplicas` and `spec.replicas`, each possibly absent
(the Python `.get(..., 0)` defaults an absent field to 0). -/
structure ReplicaInfo where
  readyReplicas : Option Nat
  replicas : Option Nat
  deriving DecidableEq

/-- Outcome of one `kubectl get deployment/statefulset ... -o json` poll. -/
inductive ReplicaPoll where
  | ok (info : ReplicaInfo)
  | cmdError (stderr : String)
  | jsonError
  | otherError (msg : String)
  deriving DecidableEq

/-- Body of one iteration of `wait_for_voltsp_deployment_ready`
(voltsp_setup.py lines 74-100): return `True` when
`desired_replicas > 0 and ready_replicas == desired_replicas`;
otherwise, and on every exception, print and retry after 10 seconds. -/
def voltspIter : ReplicaPoll → IterAction
  | .ok info =>
    let ready_replicas := info.readyReplicas.getD 0
    let desired_replicas := info.replicas.getD 0
    if 0 < desired_replicas ∧ ready_replicas = desired_replicas then .done
    else .retryAfter 10
  | .cmdError _ => .retryAfter 10
  | .jsonError => .retryAfter 10
  | .otherError _ => .retryAfter 10

/-- `wait_for_voltsp_deployment_ready` with its default
`timeout_seconds=600`, as called from `main` (voltsp_setup.py line 263).
600 s at a 10 s sleep admits exactly 60 polls; fuel 61 dominates it. -/
def wait_for_voltsp_deployment_ready (trace : Nat → ReplicaPoll) : LoopResult :=
  pollLoop voltspIter trace 600 61 0 0

/-- Body of one iteration of `wait_for_voltdb_cluster_ready`
(junk/voltdb_core_setuplat.py lines 153-180), identical in shape to the
VoltSP deployment wait but reading the StatefulSet JSON. -/
def voltdbIter : ReplicaPoll → IterAction
  | .ok info =>
    let ready_replicas := info.readyReplicas.getD 0
    let desired_replicas := info.replicas.getD 0
    if 0 < desired_replicas ∧ ready_replicas = desired_replicas then .done
    else .retryAfter 10
  | .cmdError _ => .retryAfter 10
  | .jsonError => .retryAfter 10
  | .otherError _ => .retryAfter 10

/-- `wait_for_voltdb_cluster_ready` with its default
`timeout_seconds=900` (junk/voltdb_core_setuplat.py line 145).  900 s at
a 10 s sleep admits exactly 90 polls; fuel 91 dominates it. -/
def wait_for_voltdb_cluster_ready (trace : Nat → ReplicaPoll) : LoopResult :=
  pollLoop voltdbIter trace 900 91 0 0

/-! ### run_command: the shared shell helper, one definition per script -/

/-- Observable result of the underlying `subprocess.run(command, shell=True,
check=True, text=True, capture_output=True)`: exit code and captured
stdout/stderr. -/
structure CmdResult where
  exitCode : Nat
  stdout : String
  stderr : String
  deriving DecidableEq

/-- How a call to `run_command` ends: a normal return (`some stdout` or
the Python `None`), a `sys.exit(code)`, or an uncaught exception
propagating out of the function. -/
inductive RunOutcome where
  | returned (out : Option String)
  | exited (code : Nat)
  | raised (exc : String)
  deriving DecidableEq

/-- `run_command` of tryVoltSP.py (lines 9-26): on nonzero exit of the
shell command, `check=True` raises `CalledProcessError`; the handler
prints the command, stdout, stderr, then `sys.exit(1)` when
`exit_on_error` else returns `None`. -/
def run_command_tryVoltSP (r : CmdResult) (exit_on_error : Bool) : RunOutcome :=
  if r.exitCode = 0 then .returned (some r.stdout)
  else if exit_on_error then .exited 1
  else .returned none

/-- `run_command` of vwap_setup.py (lines 8-34), with the extra
`suppress_stdout` mode (stdout sent to DEVNULL, so `process.stdout` is
the Python `None` on success).  The `except CalledProcessError` handler
is shared by both modes. -/
def run_command_vwap_setup (r : CmdResult) (exit_on_error suppress_stdout : Bool) :
    RunOutcome :=
  if r.exitCode = 0 then
    if suppress_stdout then .returned none else .returned (some r.stdout)
  else if exit_on_error then .exited 1
  else .returned none

/-- `run_command` of voltsp_setup.py (lines 12-30).  Its except clause
names `subprocess.CalledCalledProcessError`, an attribute that does not
exist; in Python the except expression is evaluated only when an
exception is in flight, so a nonzero exit raises `CalledProcessError`
and then the handler lookup itself raises `AttributeError`, which
propagates out of `run_command` unhandled. -/
def run_command_voltsp_setup (r : CmdResult) (exit_on_error : Bool) : RunOutcome :=
  if r.exitCode = 0 then .returned (some r.stdout)
  else .raised "AttributeError"

/-- `run_command` of vwap_loadgen_setup.py (lines 11-29), identical to
the tryVoltSP.py one. -/
def run_command_vwap_loadgen (r : CmdResult) (exit_on_error : Bool) : RunOutcome :=
  if r.exitCode = 0 then .returned (some r.stdout)
  else if exit_on_error then .exited 1
  else .returned none

/-! ### Create-or-skip steps (C4) -/

/-- Trace of one create-or-skip provisioning step: whether the
create/install command was issued, and whether control falls through to
the following readiness wait / next step. -/
structure StepTrace where
  createIssued : Bool
  proceeds : Bool
  deriving DecidableEq

/-- vwap_setup.py lines 158-187: `helm status <release> -n <ns>` is run
with `check=True` and both streams suppressed; `helm_release_exists`
becomes `True` exactly when it exits 0.  When it exists the install is
skipped, otherwise `helm upgrade --install` is issued; both branches
fall through to the rollout/readiness waiting logic. -/
def vwap_redpanda_step (helmStatusExitCode : Nat) : StepTrace :=
  let helm_release_exists : Bool := helmStatusExitCode == 0
  let install_new_redpanda : Bool := if helm_release_exists then false else true
  { createIssued := install_new_redpanda, proceeds := true }

/-- voltsp_setup.py lines 239-260: `helm status <pipeline> -n <ns>`
decides `helm_release_exists`; when it exists installation is skipped,
otherwise `helm install` is issued; both branches fall through to
`wait_for_voltsp_deployment_ready`. -/
def voltsp_release_step (helmStatusExitCode : Nat) : StepTrace :=
  let helm_release_exists : Bool := helmStatusExitCode == 0
  { createIssued := if helm_release_exists then false else true, proceeds := true }

/-- Trace of the topic step: whether `rpk topic create` was issued and
whether the unconditional `rpk topic alter-config` follows. -/
structure TopicStepTrace where
  createIssued : Bool
  alterIssued : Bool
  deriving DecidableEq

/-- vwap_setup.py line 224: the topic name is the constant ticker-data. -/
def topic_name : String := "ticker-data"

/-- vwap_setup.py lines 238-258: the `rpk topic list | grep -w` check is
run with `check=False`; `returncode == 0` means the topic exists and
creation is skipped, otherwise `rpk topic create` is issued; the
alter-config command is issued in both cases. -/
def vwap_topic_step (checkTopicExitCode : Nat) : TopicStepTrace :=
  { createIssued := if checkTopicExitCode == 0 then false else true,
    alterIssued := true }

/-! ### Command-line argument passing between the scripts (C3, C6) -/

/-- tryVoltSP.py line 182: `subprocess.run([sys.executable,
vwap_script_path], check=True)` — the arguments passed to vwap_setup.py
beyond the interpreter and the script path. -/
def tryVoltSP_vwap_invocation_args : List String := []

/-- vwap_setup.py line 271: `subprocess.run([sys.executable,
voltdb_script_path, red_panda_release, redpanda_namespace],
check=True)`. -/
def vwap_voltdb_invocation_args (red_panda_release redpanda_namespace : String) :
    List String :=
  [red_panda_release, redpanda_namespace]

/-- voltsp_setup.py lines 283-288: `subprocess.run([sys.executable,
vwap_loadgen_script_path, voltsp_ns, redpanda_namespace, volt_ns],
check=True)`. -/
def voltsp_loadgen_invocation_args (voltsp_ns redpanda_namespace volt_ns : String) :
    List String :=
  [voltsp_ns, redpanda_namespace, volt_ns]

/-- voltsp_setup.py lines 125-133: `if len(sys.argv) < 5: ...
sys.exit(1)`, then the four positional identifiers are read from
`sys.argv[1..4]`.  `argv` includes the script path at index 0. -/
def voltsp_main_start (argv : List String) :
    Except Nat (String × String × String × String) :=
  if argv.length < 5 then .error 1
  else .ok (argv.getD 1 "", argv.getD 2 "", argv.getD 3 "", argv.getD 4 "")

/-- vwap_loadgen_setup.py lines 61-68: `if len(sys.argv) < 4: ...
sys.exit(1)`, then the three namespaces are read from `sys.argv[1..3]`. -/
def vwap_loadgen_main_start (argv : List String) :
    Except Nat (String × String × String) :=
  if argv.length < 4 then .error 1
  else .ok (argv.getD 1 "", argv.getD 2 "", argv.getD 3 "")

/-- junk/voltdb_core_setuplat.py lines 194-200: `if len(sys.argv) < 3:
... sys.exit(1)`, then release and namespace are read from
`sys.argv[1..2]`. -/
def voltdb_core_main_start (argv : List String) : Except Nat (String × String) :=
  if argv.length < 3 then .error 1
  else .ok (argv.getD 1 "", argv.getD 2 "")

/-! ### tryVoltSP.py main: the GKE cluster step (C7) -/

/-- `get_user_input` (tryVoltSP.py lines 28-35) with a nonempty default:
`input(...) or default`, i.e. the default replaces an empty answer. -/
def get_user_input (raw default_ : String) : String :=
  if raw = "" then default_ else raw

/-- Python `str.lower()` on the answers involved here (ASCII): lowercase
every character. -/
def py_lower (s : String) : String := String.mk (s.data.map Char.toLower)

/-- Trace of the cluster step of `main` (tryVoltSP.py lines 112-160):
whether `gcloud container clusters create` was issued, whether
`wait_for_gke_cluster_ready` was entered, and how the step ends
(`some code` = `sys.exit(code)`, `none` = control reaches the
`get-credentials` call on line 164). -/
structure ClusterStepTrace where
  createIssued : Bool
  polled : Bool
  exit : Option Nat
  deriving DecidableEq

/-- The cluster step of `main` (tryVoltSP.py lines 112-160).
`cluster_exists` is the result of `check_gke_cluster_exists`;
`proceedAnswerRaw` the raw answer to the proceed prompt (default "yes");
`createSucceeds` whether the `gcloud ... create` command exits 0
(`run_command` exits the script with status 1 otherwise);
`waitReady` the boolean returned by `wait_for_gke_cluster_ready`. -/
def tryVoltSP_cluster_step (cluster_exists : Bool) (proceedAnswerRaw : String)
    (createSucceeds : Bool) (waitReady : Bool) : ClusterStepTrace :=
  if cluster_exists then
    let proceed_with_existing := get_user_input proceedAnswerRaw "yes"
    if py_lower proceed_with_existing ≠ "yes" then
      { createIssued := false, polled := false, exit := some 0 }
    else if waitReady then
      { createIssued := false, polled := true, exit := none }
    else
      { createIssued := false, polled := true, exit := some 1 }
  else
    if createSucceeds then
      if waitReady then
        { createIssued := true, polled := true, exit := none }
      else
        { createIssued := true, polled := true, exit := some 1 }
    else
      { createIssued := true, polled := false, exit := some 1 }

/-! ### Temporary YAML files and their finally blocks (C9) -/

/-- How the body of one of the try/finally blocks ends: normal
completion, `sys.exit(code)` from `run_command`, or an exception
(e.g. the `AttributeError` escaping voltsp_setup.py run_command). -/
inductive BlockExit where
  | normal
  | exited (code : Nat)
  | raised (exc : String)
  deriving DecidableEq

/-- The filesystem is modelled as the list of existing file paths.
`os.path.exists` is membership. -/
def os_path_exists (fs : List String) (p : String) : Bool := fs.contains p

/-- `os.remove` deletes the path from the filesystem. -/
def os_remove (fs : List String) (p : String) : List String := fs.erase p

/-- The shared finally clause: `if temp_file and os.path.exists(path):
os.remove(path)` (voltsp_setup.py lines 270-273, vwap_loadgen_setup.py
lines 137-139 and 157-159). -/
def finally_cleanup (tempCreated : Bool) (path : String) (fs : List String) :
    List String :=
  if tempCreated && os_path_exists fs path then os_remove fs path else fs

/-- The shared try/finally shape of the three temp-YAML blocks: a
pre-creation phase `pre` (commands run before `NamedTemporaryFile`),
then creation of the temp file at `path` (`delete=False`, written and
closed), then the body with outcome `post`, then the finally clause.
Returns the filesystem after the block and the propagated outcome. -/
def temp_file_block (fs : List String) (path : String) (pre post : BlockExit) :
    List String × BlockExit :=
  match pre with
  | .normal =>
    let fs1 := path :: fs
    (finally_cleanup true path fs1, post)
  | e => (finally_cleanup false path fs, e)

/-- voltsp_setup.py lines 193-273: the dynamically generated VoltSP
values file.  Before `NamedTemporaryFile` only prints and string
formatting run, so the pre-phase always completes. -/
def voltsp_values_file_block (fs : List String) (path : String) (body : BlockExit) :
    List String × BlockExit :=
  temp_file_block fs path .normal body

/-- vwap_loadgen_setup.py lines 96-139: the generated ConfigMap file.
Before `NamedTemporaryFile` only prints and string formatting run. -/
def loadgen_configmap_block (fs : List String) (path : String) (body : BlockExit) :
    List String × BlockExit :=
  temp_file_block fs path .normal body

/-- vwap_loadgen_setup.py lines 145-159: the namespace-overridden Job
file.  The `yq` run_command (line 148) executes before the temp file is
created, so its outcome is the pre-phase. -/
def loadgen_job_block (fs : List String) (path : String) (yqResult body : BlockExit) :
    List String × BlockExit :=
  temp_file_block fs path yqResult body

/-! ### vwap_setup.py: the StatefulSet rollout-status retry loop (C10) -/

/-- Python substring containment `needle in hay` for strings. -/
def str_contains (hay needle : String) : Bool :=
  (List.range (hay.length + 1)).any fun k => needle.isPrefixOf (hay.drop k)

/-- The Python expression `needle in hay` where `hay` is
`e.stderr : Optional[str]`: on `None` it raises
`TypeError: argument of type NoneType is not iterable`. -/
def py_in_opt_str (needle : String) (hay : Option String) : Except String Bool :=
  match hay with
  | none => .error "TypeError"
  | some s => .ok (str_contains s needle)

/-- Result of the rollout-status retry loop: success after a number of
attempts, `sys.exit(code)`, or an uncaught exception. -/
inductive RolloutResult where
  | success (attemptsUsed : Nat)
  | exited (code : Nat)
  | raised (exc : String)
  deriving DecidableEq

/-- vwap_setup.py lines 196-209, the body of `for i in range(max_retries)`
with `remaining` iterations left.  `attempt i` tells whether the
`kubectl rollout status` subprocess (run with `capture_output=False`, so
`e.stderr` is the Python `None` on failure) exits 0 on attempt `i`.
On failure the handler evaluates `"NotFound" in e.stderr` and then
either sleeps 5 s and retries or exits with status 1; after the loop,
`if not rollout_successful: sys.exit(1)` (lines 211-213). -/
def vwap_rollout_go (attempt : Nat → Bool) (max_retries : Nat) :
    Nat → Nat → RolloutResult
  | 0, _i => .exited 1
  | remaining + 1, i =>
    if attempt i then .success (i + 1)
    else
      match py_in_opt_str "NotFound" none with
      | .error exc => .raised exc
      | .ok b =>
        if b && decide (i < max_retries - 1) then
          vwap_rollout_go attempt max_retries remaining (i + 1)
        else .exited 1

/-- The whole retry loop with `max_retries = 5` (vwap_setup.py line 193). -/
def vwap_rollout_loop (attempt : Nat → Bool) : RolloutResult :=
  vwap_rollout_go attempt 5 5 0

/-! ### Concrete inputs used by witnesses -/

/-- A pod whose conditions report Ready/True. -/
def readyPod : Pod := { conditions := [{ type := "Ready", status := "True" }] }

/-- A pod with a Ready condition whose status is False. -/
def unreadyPod : Pod := { conditions := [{ type := "Ready", status := "False" }] }

/-- Three ready pods: the poll outcome on which the Redpanda wait
succeeds. -/
def threeReadyPods : List Pod := [readyPod, readyPod, readyPod]

/-! ## Helper lemmas about the generic polling loop -/

/-- If every body outcome is either success or a retry after a fixed
sleep, and the first successful poll is poll `i + d` with all polls
before it (from `i`) unsuccessful, and that poll still falls inside the
timeout window, then the loop returns `True` right there, having
performed `i + d + 1` polls in total. -/
theorem pollLoop_first {α : Type} (iter : α → IterAction) (trace : Nat → α)
    (timeout sleep : Nat)
    (hiter : ∀ p, iter p = .done ∨ iter p = .retryAfter sleep) :
    ∀ (d fuel i elapsed : Nat), d < fuel → elapsed + d * sleep < timeout →
      (∀ m, m < d → iter (trace (i + m)) ≠ .done) →
      iter (trace (i + d)) = .done →
      pollLoop iter trace timeout fuel i elapsed = .finished true (i + d + 1) := by
  intro d
  induction d with
  | zero =>
    intro fuel i elapsed hfuel htime _hmin hdone
    cases fuel with
    | zero => omega
    | succ fuel =>
      simp only [pollLoop]
      rw [if_pos (by omega : elapsed < timeout)]
      rw [show i + 0 = i from rfl] at hdone
      rw [hdone]
  | succ d ih =>
    intro fuel i elapsed hfuel htime hmin hdone
    cases fuel with
    | zero => omega
    | succ fuel =>
      simp only [pollLoop]
      have hlt : elapsed < timeout :=
        Nat.lt_of_le_of_lt (Nat.le_add_right _ _) htime
      rw [if_pos hlt]
      have h0 : iter (trace i) ≠ .done := by
        have := hmin 0 (Nat.succ_pos d)
        simpa using this
      rcases hiter (trace i) with h | h
      · exact absurd h h0
      · rw [h]
        have htime' : elapsed + sleep + d * sleep < timeout := by
          have heq : elapsed + sleep + d * sleep = elapsed + (d + 1) * sleep := by ring
          rw [heq]; exact htime
        have hmin' : ∀ m, m < d → iter (trace (i + 1 + m)) ≠ .done := by
          intro m hm
          have := hmin (m + 1) (by omega)
          rw [show i + (m + 1) = i + 1 + m by omega] at this
          exact this
        have hdone' : iter (trace (i + 1 + d)) = .done := by
          rw [show i + 1 + d = i + (d + 1) by omega]
          exact hdone
        show pollLoop iter trace timeout fuel (i + 1) (elapsed + sleep) =
          LoopResult.finished true (i + (d + 1) + 1)
        rw [ih fuel (i + 1) (elapsed + sleep) (by omega) htime' hmin' hdone']
        rw [show i + 1 + d + 1 = i + (d + 1) + 1 by omega]

/-- If every body outcome is either success or a retry after a fixed
sleep, `k` is exactly the number of polls the timeout window admits from
clock value `elapsed`, none of those `k` polls succeeds, and the fuel
covers them, then the loop returns `False` after performing those `k`
polls. -/
theorem pollLoop_timeout {α : Type} (iter : α → IterAction) (trace : Nat → α)
    (timeout sleep : Nat)
    (hiter : ∀ p, iter p = .done ∨ iter p = .retryAfter sleep) :
    ∀ (k fuel i elapsed : Nat), k ≤ fuel →
      timeout ≤ elapsed + k * sleep →
      (∀ m, m < k → elapsed + m * sleep < timeout) →
      (∀ m, m < k → iter (trace (i + m)) ≠ .done) →
      pollLoop iter trace timeout fuel i elapsed = .finished false (i + k) := by
  intro k
  induction k with
  | zero =>
    intro fuel i elapsed _hfuel htime _hwin _hmiss
    cases fuel with
    | zero => simp [pollLoop]
    | succ fuel =>
      simp only [pollLoop]
      rw [if_neg (by omega), Nat.add_zero]
  | succ k ih =>
    intro fuel i elapsed hfuel htime hwin hmiss
    cases fuel with
    | zero => omega
    | succ fuel =>
      simp only [pollLoop]
      have hlt : elapsed < timeout := by
        have := hwin 0 (Nat.succ_pos k)
        simpa using this
      rw [if_pos hlt]
      have h0 : iter (trace i) ≠ .done := by
        have := hmiss 0 (Nat.succ_pos k)
        simpa using this
      rcases hiter (trace i) with h | h
      · exact absurd h h0
      · rw [h]
        have htime' : timeout ≤ elapsed + sleep + k * sleep := by
          have heq : elapsed + sleep + k * sleep = elapsed + (k + 1) * sleep := by ring
          rw [heq]; exact htime
        have hwin' : ∀ m, m < k → elapsed + sleep + m * sleep < timeout := by
          intro m hm
          have heq : elapsed + sleep + m * sleep = elapsed + (m + 1) * sleep := by ring
          rw [heq]
          exact hwin (m + 1) (by omega)
        have hmiss' : ∀ m, m < k → iter (trace (i + 1 + m)) ≠ .done := by
          intro m hm
          have := hmiss (m + 1) (by omega)
          rw [show i + (m + 1) = i + 1 + m by omega] at this
          exact this
        show pollLoop iter trace timeout fuel (i + 1) (elapsed + sleep) =
          LoopResult.finished false (i + (k + 1))
        rw [ih fuel (i + 1) (elapsed + sleep) (by omega) htime' hwin' hmiss']
        rw [show i + 1 + k = i + (k + 1) by omega]

/-- A loop whose body never produces a `fatal` action always returns
normally (the process neither exits nor crashes inside the loop). -/
theorem pollLoop_no_abort {α : Type} (iter : α → IterAction) (trace : Nat → α)
    (timeout : Nat) (hiter : ∀ p c, iter p ≠ .fatal c) :
    ∀ (fuel i elapsed : Nat), ∃ b n,
      pollLoop iter trace timeout fuel i elapsed = .finished b n := by
  intro fuel
  induction fuel with
  | zero => intro i elapsed; exact ⟨false, i, rfl⟩
  | succ fuel ih =>
    intro i elapsed
    simp only [pollLoop]
    by_cases h : elapsed < timeout
    · rw [if_pos h]
      cases hit : iter (trace i) with
      | done => exact ⟨true, i + 1, rfl⟩
      | retryAfter s => exact ih (i + 1) (elapsed + s)
      | fatal c => exact absurd hit (hiter _ c)
    · rw [if_neg h]
      exact ⟨false, i, rfl⟩

/-- If the loop returned `True`, some poll produced a successful body
outcome, and the poll count is one past that poll. -/
theorem pollLoop_success_poll {α : Type} (iter : α → IterAction) (trace : Nat → α)
    (timeout : Nat) :
    ∀ (fuel i elapsed n : Nat),
      pollLoop iter trace timeout fuel i elapsed = .finished true n →
      ∃ j, iter (trace j) = .done ∧ n = j + 1 := by
  intro fuel
  induction fuel with
  | zero =>
    intro i elapsed n h
    simp [pollLoop] at h
  | succ fuel ih =>
    intro i elapsed n h
    simp only [pollLoop] at h
    by_cases hc : elapsed < timeout
    · rw [if_pos hc] at h
      cases hit : iter (trace i) with
      | done =>
        rw [hit] at h
        simp at h
        exact ⟨i, hit, h.symm⟩
      | retryAfter s =>
        rw [hit] at h
        exact ih (i + 1) (elapsed + s) n h
      | fatal c =>
        rw [hit] at h
        simp at h
    · rw [if_neg hc] at h
      simp at h

/-! ## Classification of the loop bodies -/

/-- The GKE wait body either succeeds or retries after 30 seconds. -/
theorem gkeIter_done_or_retry (p : GkePoll) :
    gkeIter p = .done ∨ gkeIter p = .retryAfter 30 := by
  cases p with
  | ok s =>
    simp only [gkeIter]
    split
    · exact Or.inl rfl
    · exact Or.inr rfl
  | cmdError e => exact Or.inr rfl
  | jsonError => exact Or.inr rfl
  | otherError m => exact Or.inr rfl

/-- The Redpanda wait body either succeeds or retries after 10 seconds. -/
theorem redpandaIter_done_or_retry (p : RedpandaPoll) :
    redpandaIter p = .done ∨ redpandaIter p = .retryAfter 10 := by
  cases p with
  | ok items =>
    simp only [redpandaIter]
    split
    · exact Or.inl rfl
    · exact Or.inr rfl
  | cmdError e => exact Or.inr rfl
  | jsonError => exact Or.inr rfl
  | otherError m => exact Or.inr rfl

/-- The VoltSP wait body either succeeds or retries after 10 seconds. -/
theorem voltspIter_done_or_retry (p : ReplicaPoll) :
    voltspIter p = .done ∨ voltspIter p = .retryAfter 10 := by
  cases p with
  | ok info =>
    simp only [voltspIter]
    split
    · exact Or.inl rfl
    · exact Or.inr rfl
  | cmdError e => exact Or.inr rfl
  | jsonError => exact Or.inr rfl
  | otherError m => exact Or.inr rfl

/-- The VoltDB wait body either succeeds or retries after 10 seconds. -/
theorem voltdbIter_done_or_retry (p : ReplicaPoll) :
    voltdbIter p = .done ∨ voltdbIter p = .retryAfter 10 := by
  cases p with
  | ok info =>
    simp only [voltdbIter]
    split
    · exact Or.inl rfl
    · exact Or.inr rfl
  | cmdError e => exact Or.inr rfl
  | jsonError => exact Or.inr rfl
  | otherError m => exact Or.inr rfl

/-- No GKE wait body outcome aborts the process. -/
theorem gkeIter_ne_fatal (p : GkePoll) (c : Option Nat) : gkeIter p ≠ .fatal c := by
  rcases gkeIter_done_or_retry p with h | h <;> simp [h]

/-- No Redpanda wait body outcome aborts the process. -/
theorem redpandaIter_ne_fatal (p : RedpandaPoll) (c : Option Nat) :
    redpandaIter p ≠ .fatal c := by
  rcases redpandaIter_done_or_retry p with h | h <;> simp [h]

/-- No VoltSP wait body outcome aborts the process. -/
theorem voltspIter_ne_fatal (p : ReplicaPoll) (c : Option Nat) :
    voltspIter p ≠ .fatal c := by
  rcases voltspIter_done_or_retry p with h | h <;> simp [h]

/-! ## Claim theorems -/

/-- C1: each readiness polling loop (the Redpanda pod wait, the VoltSP
deployment wait, and the VoltDB StatefulSet wait) returns True only
when some status poll reported a ready-replica count equal to the
desired-replica count: 3 (the configured `statefulset.replicas=3`) for
the Redpanda pod wait, and the polled `spec.replicas` (required
positive) for the VoltSP deployment and VoltDB StatefulSet waits. -/
theorem c1_wait_true_only_when_counts_match :
    (∀ (trace : Nat → RedpandaPoll) (n : Nat),
        wait_for_redpanda_pods_ready trace = .finished true n →
        ∃ j items, trace j = .ok items ∧
          count_ready_pods items = total_expected_pods) ∧
    total_expected_pods = 3 ∧
    (∀ (trace : Nat → ReplicaPoll) (n : Nat),
        wait_for_voltsp_deployment_ready trace = .finished true n →
        ∃ j info, trace j = .ok info ∧ 0 < info.replicas.getD 0 ∧
          info.readyReplicas.getD 0 = info.replicas.getD 0) ∧
    (∀ (trace : Nat → ReplicaPoll) (n : Nat),
        wait_for_voltdb_cluster_ready trace = .finished true n →
        ∃ j info, trace j = .ok info ∧ 0 < info.replicas.getD 0 ∧
          info.readyReplicas.getD 0 = info.replicas.getD 0) := by
  refine ⟨?_, rfl, ?_, ?_⟩
  · intro trace n h
    obtain ⟨j, hdone, _⟩ := pollLoop_success_poll redpandaIter trace 600 61 0 0 n h
    cases htr : trace j with
    | ok items =>
      refine ⟨j, items, htr, ?_⟩
      rw [htr] at hdone
      by_contra hne
      simp [redpandaIter, hne] at hdone
    | cmdError e => rw [htr] at hdone; simp [redpandaIter] at hdone
    | jsonError => rw [htr] at hdone; simp [redpandaIter] at hdone
    | otherError m => rw [htr] at hdone; simp [redpandaIter] at hdone
  · intro trace n h
    obtain ⟨j, hdone, _⟩ := pollLoop_success_poll voltspIter trace 600 61 0 0 n h
    cases htr : trace j with
    | ok info =>
      rw [htr] at hdone
      by_cases hc : 0 < info.replicas.getD 0 ∧
          info.readyReplicas.getD 0 = info.replicas.getD 0
      · exact ⟨j, info, htr, hc.1, hc.2⟩
      · simp [voltspIter, hc] at hdone
    | cmdError e => rw [htr] at hdone; simp [voltspIter] at hdone
    | jsonError => rw [htr] at hdone; simp [voltspIter] at hdone
    | otherError m => rw [htr] at hdone; simp [voltspIter] at hdone
  · intro trace n h
    obtain ⟨j, hdone, _⟩ := pollLoop_success_poll voltdbIter trace 900 91 0 0 n h
    cases htr : trace j with
    | ok info =>
      rw [htr] at hdone
      by_cases hc : 0 < info.replicas.getD 0 ∧
          info.readyReplicas.getD 0 = info.replicas.getD 0
      · exact ⟨j, info, htr, hc.1, hc.2⟩
      · simp [voltdbIter, hc] at hdone
    | cmdError e => rw [htr] at hdone; simp [voltdbIter] at hdone
    | jsonError => rw [htr] at hdone; simp [voltdbIter] at hdone
    | otherError m => rw [htr] at hdone; simp [voltdbIter] at hdone

/-- C1 witness: concrete successful runs of the three waits, fed to the
claim theorem. -/
theorem c1_wait_true_only_when_counts_match_witness :
    (∃ j items, (fun _ : Nat => RedpandaPoll.ok threeReadyPods) j = .ok items ∧
        count_ready_pods items = total_expected_pods) ∧
    (∃ j info, (fun _ : Nat => ReplicaPoll.ok ⟨some 2, some 2⟩) j = .ok info ∧
        0 < info.replicas.getD 0 ∧
        info.readyReplicas.getD 0 = info.replicas.getD 0) ∧
    (∃ j info, (fun _ : Nat => ReplicaPoll.ok ⟨some 1, some 1⟩) j = .ok info ∧
        0 < info.replicas.getD 0 ∧
        info.readyReplicas.getD 0 = info.replicas.getD 0) :=
  ⟨c1_wait_true_only_when_counts_match.1 _ 1 (by decide),
   c1_wait_true_only_when_counts_match.2.2.1 _ 1 (by decide),
   c1_wait_true_only_when_counts_match.2.2.2 _ 1 (by decide)⟩

/-- C2: each wait (GKE, Redpanda, VoltSP) returns True at the first
poll whose body observes the readiness condition, having performed
exactly that many polls, and returns False after the window of polls
the timeout admits (30 polls in 900 s at 30 s for GKE, 60 polls in
600 s at 10 s for the other two) is exhausted without an observation. -/
theorem c2_wait_termination_behavior :
    (∀ (trace : Nat → GkePoll) (d : Nat), d < 30 →
        (∀ m, m < d → gkeIter (trace m) ≠ .done) → gkeIter (trace d) = .done →
        wait_for_gke_cluster_ready trace = .finished true (d + 1)) ∧
    (∀ trace : Nat → GkePoll, (∀ m, m < 30 → gkeIter (trace m) ≠ .done) →
        wait_for_gke_cluster_ready trace = .finished false 30) ∧
    (∀ (trace : Nat → RedpandaPoll) (d : Nat), d < 60 →
        (∀ m, m < d → redpandaIter (trace m) ≠ .done) →
        redpandaIter (trace d) = .done →
        wait_for_redpanda_pods_ready trace = .finished true (d + 1)) ∧
    (∀ trace : Nat → RedpandaPoll, (∀ m, m < 60 → redpandaIter (trace m) ≠ .done) →
        wait_for_redpanda_pods_ready trace = .finished false 60) ∧
    (∀ (trace : Nat → ReplicaPoll) (d : Nat), d < 60 →
        (∀ m, m < d → voltspIter (trace m) ≠ .done) →
        voltspIter (trace d) = .done →
        wait_for_voltsp_deployment_ready trace = .finished true (d + 1)) ∧
    (∀ trace : Nat → ReplicaPoll, (∀ m, m < 60 → voltspIter (trace m) ≠ .done) →
        wait_for_voltsp_deployment_ready trace = .finished false 60) := by
  refine ⟨?_, ?_, ?_, ?_, ?_, ?_⟩
  · intro trace d hd hmin hdone
    have h := pollLoop_first gkeIter trace 900 30 gkeIter_done_or_retry d 31 0 0
      (by omega) (by omega)
      (by intro m hm; simpa using hmin m hm)
      (by simpa using hdone)
    simpa using h
  · intro trace hmiss
    have h := pollLoop_timeout gkeIter trace 900 30 gkeIter_done_or_retry 30 31 0 0
      (by omega) (by omega)
      (by intro m hm; omega)
      (by intro m hm; simpa using hmiss m hm)
    simpa using h
  · intro trace d hd hmin hdone
    have h := pollLoop_first redpandaIter trace 600 10 redpandaIter_done_or_retry
      d 61 0 0 (by omega) (by omega)
      (by intro m hm; simpa using hmin m hm)
      (by simpa using hdone)
    simpa using h
  · intro trace hmiss
    have h := pollLoop_timeout redpandaIter trace 600 10 redpandaIter_done_or_retry
      60 61 0 0 (by omega) (by omega)
      (by intro m hm; omega)
      (by intro m hm; simpa using hmiss m hm)
    simpa using h
  · intro trace d hd hmin hdone
    have h := pollLoop_first voltspIter trace 600 10 voltspIter_done_or_retry
      d 61 0 0 (by omega) (by omega)
      (by intro m hm; simpa using hmin m hm)
      (by simpa using hdone)
    simpa using h
  · intro trace hmiss
    have h := pollLoop_timeout voltspIter trace 600 10 voltspIter_done_or_retry
      60 61 0 0 (by omega) (by omega)
      (by intro m hm; omega)
      (by intro m hm; simpa using hmiss m hm)
    simpa using h

/-- C2 witness: a GKE run that becomes RUNNING on the third poll, runs
that never become ready within the window, and runs ready immediately,
all fed to the claim theorem. -/
theorem c2_wait_termination_behavior_witness :
    wait_for_gke_cluster_ready
        (fun i => if i = 2 then .ok "RUNNING" else .ok "PROVISIONING") =
      .finished true 3 ∧
    wait_for_gke_cluster_ready (fun _ => .ok "PROVISIONING") =
      .finished false 30 ∧
    wait_for_redpanda_pods_ready (fun _ => .ok threeReadyPods) =
      .finished true 1 ∧
    wait_for_redpanda_pods_ready (fun _ => .ok [readyPod, unreadyPod]) =
      .finished false 60 ∧
    wait_for_voltsp_deployment_ready (fun _ => .ok ⟨some 2, some 2⟩) =
      .finished true 1 ∧
    wait_for_voltsp_deployment_ready (fun _ => .ok ⟨some 0, some 2⟩) =
      .finished false 60 :=
  ⟨c2_wait_termination_behavior.1 _ 2 (by decide) (by decide) (by decide),
   c2_wait_termination_behavior.2.1 _ (by decide),
   c2_wait_termination_behavior.2.2.1 _ 0 (by decide) (by decide) (by decide),
   c2_wait_termination_behavior.2.2.2.1 _ (by decide),
   c2_wait_termination_behavior.2.2.2.2.1 _ 0 (by decide) (by decide) (by decide),
   c2_wait_termination_behavior.2.2.2.2.2 _ (by decide)⟩

/-- C5: within every readiness polling loop, a failed status-query
subprocess, unparsable JSON output, or any other exception during one
poll produces a retry after the fixed sleep (30 s in the GKE wait, 10 s
in the Redpanda and VoltSP waits), and the loops always return normally
(no body outcome exits or crashes the process). -/
theorem c5_poll_errors_never_terminate :
    (∀ e, gkeIter (.cmdError e) = .retryAfter 30) ∧
    gkeIter .jsonError = .retryAfter 30 ∧
    (∀ m, gkeIter (.otherError m) = .retryAfter 30) ∧
    (∀ e, redpandaIter (.cmdError e) = .retryAfter 10) ∧
    redpandaIter .jsonError = .retryAfter 10 ∧
    (∀ m, redpandaIter (.otherError m) = .retryAfter 10) ∧
    (∀ e, voltspIter (.cmdError e) = .retryAfter 10) ∧
    voltspIter .jsonError = .retryAfter 10 ∧
    (∀ m, voltspIter (.otherError m) = .retryAfter 10) ∧
    (∀ (trace : Nat → GkePoll) (fuel i elapsed : Nat), ∃ b n,
        pollLoop gkeIter trace 900 fuel i elapsed = .finished b n) ∧
    (∀ (trace : Nat → RedpandaPoll) (fuel i elapsed : Nat), ∃ b n,
        pollLoop redpandaIter trace 600 fuel i elapsed = .finished b n) ∧
    (∀ (trace : Nat → ReplicaPoll) (fuel i elapsed : Nat), ∃ b n,
        pollLoop voltspIter trace 600 fuel i elapsed = .finished b n) :=
  ⟨fun _ => rfl, rfl, fun _ => rfl,
   fun _ => rfl, rfl, fun _ => rfl,
   fun _ => rfl, rfl, fun _ => rfl,
   fun trace => pollLoop_no_abort gkeIter trace 900 gkeIter_ne_fatal,
   fun trace => pollLoop_no_abort redpandaIter trace 600 redpandaIter_ne_fatal,
   fun trace => pollLoop_no_abort voltspIter trace 600 voltspIter_ne_fatal⟩

/-- C3 counterexample: the invocation of vwap_setup.py by tryVoltSP.py
(line 182) passes an empty argument list, so no release name or
namespace identifier is passed on that edge of the chain, although
vwap_setup.py does consume a Redpanda namespace and release name (it
collects them interactively on its lines 153-156). -/
theorem c3_counterexample_no_args_to_vwap_setup :
    tryVoltSP_vwap_invocation_args = [] := rfl

/-- C3 (amended): vwap_setup.py passes the Redpanda release and
namespace to the VoltDB core setup script, whose argument parsing
recovers exactly them, and voltsp_setup.py passes the three namespaces
to vwap_loadgen_setup.py, whose parsing recovers exactly them;
tryVoltSP.py, however, invokes vwap_setup.py with no command-line
arguments (vwap_setup.py collects its identifiers interactively). -/
theorem c3_amended_argument_passing :
    (∀ rel ns : String,
        voltdb_core_main_start
            ("voltdb_core_setup.py" :: vwap_voltdb_invocation_args rel ns) =
          .ok (rel, ns)) ∧
    (∀ a b c : String,
        vwap_loadgen_main_start
            ("vwap_loadgen_setup.py" :: voltsp_loadgen_invocation_args a b c) =
          .ok (a, b, c)) ∧
    tryVoltSP_vwap_invocation_args = [] :=
  ⟨fun _ _ => rfl, fun _ _ _ => rfl, rfl⟩

/-- C4: each create-or-skip step (the Redpanda Helm release in
vwap_setup.py, the VoltSP Helm release in voltsp_setup.py, the
ticker-data topic in vwap_setup.py) issues its create/install command
exactly when the existence check reported the resource absent (check
exit code nonzero), and in both cases control falls through to the
waiting logic / next command; hence a second run in a state where the
resource exists issues no new create command. -/
theorem c4_create_or_skip :
    (∀ rc : Nat, ((vwap_redpanda_step rc).createIssued = false ↔ rc = 0) ∧
        (vwap_redpanda_step rc).proceeds = true) ∧
    (∀ rc : Nat, ((voltsp_release_step rc).createIssued = false ↔ rc = 0) ∧
        (voltsp_release_step rc).proceeds = true) ∧
    (∀ rc : Nat, ((vwap_topic_step rc).createIssued = false ↔ rc = 0) ∧
        (vwap_topic_step rc).alterIssued = true) ∧
    topic_name = "ticker-data" := by
  refine ⟨?_, ?_, ?_, rfl⟩ <;>
    intro rc <;>
    by_cases h : rc = 0 <;>
      simp [vwap_redpanda_step, voltsp_release_step, vwap_topic_step, h]

/-- C4 witness: the claim theorem instantiated at check exit codes 0
(resource exists) and 1 (resource absent). -/
theorem c4_create_or_skip_witness :
    (((vwap_redpanda_step 0).createIssued = false ↔ (0 : Nat) = 0) ∧
      (vwap_redpanda_step 0).proceeds = true) ∧
    (((vwap_redpanda_step 1).createIssued = false ↔ (1 : Nat) = 0) ∧
      (vwap_redpanda_step 1).proceeds = true) ∧
    (((voltsp_release_step 0).createIssued = false ↔ (0 : Nat) = 0) ∧
      (voltsp_release_step 0).proceeds = true) ∧
    (((vwap_topic_step 1).createIssued = false ↔ (1 : Nat) = 0) ∧
      (vwap_topic_step 1).alterIssued = true) :=
  ⟨c4_create_or_skip.1 0, c4_create_or_skip.1 1,
   c4_create_or_skip.2.1 0, c4_create_or_skip.2.2.1 1⟩

/-- C6: voltsp_setup.py exits with status 1 when fewer than 4
positional arguments are supplied and otherwise reads its four
identifiers from argv, and vwap_loadgen_setup.py exits with status 1
when fewer than 3 positional arguments are supplied and otherwise reads
its three namespaces from argv; both checks run before any other work
of main. -/
theorem c6_argument_count_validation :
    (∀ argv : List String, argv.length - 1 < 4 → voltsp_main_start argv = .error 1) ∧
    (∀ argv : List String, 4 ≤ argv.length - 1 →
        voltsp_main_start argv =
          .ok (argv.getD 1 "", argv.getD 2 "", argv.getD 3 "", argv.getD 4 "")) ∧
    (∀ argv : List String, argv.length - 1 < 3 →
        vwap_loadgen_main_start argv = .error 1) ∧
    (∀ argv : List String, 3 ≤ argv.length - 1 →
        vwap_loadgen_main_start argv =
          .ok (argv.getD 1 "", argv.getD 2 "", argv.getD 3 "")) := by
  refine ⟨?_, ?_, ?_, ?_⟩ <;> intro argv h <;>
    simp only [voltsp_main_start, vwap_loadgen_main_start] <;>
    [rw [if_pos (by omega)]; rw [if_neg (by omega)]; rw [if_pos (by omega)];
     rw [if_neg (by omega)]]

/-- C6 witness: the claim theorem instantiated at a three-argument call
of voltsp_setup.py (too few), a four-argument call (enough), a
two-argument call of vwap_loadgen_setup.py (too few), and a
three-argument call (enough). -/
theorem c6_argument_count_validation_witness :
    voltsp_main_start ["voltsp_setup.py", "rel", "rns", "cluster"] = .error 1 ∧
    voltsp_main_start ["voltsp_setup.py", "rel", "rns", "cluster", "vns"] =
      .ok ("rel", "rns", "cluster", "vns") ∧
    vwap_loadgen_main_start ["vwap_loadgen_setup.py", "lns", "rns"] = .error 1 ∧
    vwap_loadgen_main_start ["vwap_loadgen_setup.py", "lns", "rns", "vns"] =
      .ok ("lns", "rns", "vns") :=
  ⟨c6_argument_count_validation.1 _ (by decide),
   c6_argument_count_validation.2.1 _ (by decide),
   c6_argument_count_validation.2.2.1 _ (by decide),
   c6_argument_count_validation.2.2.2 _ (by decide)⟩

/-- C7 counterexample: with the cluster existing and the user answering
YES — a string other than yes — the claim says the script exits with
status 0 without polling; the code lowercases the answer, so it
proceeds and polls readiness instead. -/
theorem c7_counterexample_uppercase_yes :
    (tryVoltSP_cluster_step true "YES" true true).exit ≠ some 0 ∧
    (tryVoltSP_cluster_step true "YES" true true).polled = true := by
  decide

/-- C7 (amended): in the cluster step of tryVoltSP.py main, when the
cluster exists and the effective answer (empty input defaults to yes)
does not lowercase to yes, the script exits with status 0 without
issuing a create command and without polling; the create command is
issued only when the existence check reported the cluster absent; and
in both the existing-cluster case (answer lowercasing to yes) and the
newly-created case (create command succeeded) the script polls
readiness and exits with status 1 when the cluster does not reach
RUNNING, proceeding otherwise. -/
theorem c7_amended_cluster_step :
    (∀ ans create wait, py_lower (get_user_input ans "yes") ≠ "yes" →
        tryVoltSP_cluster_step true ans create wait =
          { createIssued := false, polled := false, exit := some 0 }) ∧
    (∀ ans create wait,
        (tryVoltSP_cluster_step true ans create wait).createIssued = false) ∧
    (∀ ans create, py_lower (get_user_input ans "yes") = "yes" →
        tryVoltSP_cluster_step true ans create true =
          { createIssued := false, polled := true, exit := none } ∧
        tryVoltSP_cluster_step true ans create false =
          { createIssued := false, polled := true, exit := some 1 }) ∧
    (∀ ans,
        tryVoltSP_cluster_step false ans true true =
          { createIssued := true, polled := true, exit := none } ∧
        tryVoltSP_cluster_step false ans true false =
          { createIssued := true, polled := true, exit := some 1 }) := by
  refine ⟨?_, ?_, ?_, ?_⟩
  · intro ans create wait h
    simp [tryVoltSP_cluster_step, h]
  · intro ans create wait
    simp only [tryVoltSP_cluster_step, if_true]
    split
    · rfl
    · split <;> rfl
  · intro ans create h
    constructor <;> simp [tryVoltSP_cluster_step, h]
  · intro ans
    constructor <;> rfl

/-- C7 (amended) witness: the claim theorem instantiated at the answers
no (declined), the empty answer (defaults to yes), and the
cluster-absent case. -/
theorem c7_amended_cluster_step_witness :
    tryVoltSP_cluster_step true "no" true true =
      { createIssued := false, polled := false, exit := some 0 } ∧
    (tryVoltSP_cluster_step true "no" true true).createIssued = false ∧
    (tryVoltSP_cluster_step true "" true true =
        { createIssued := false, polled := true, exit := none } ∧
      tryVoltSP_cluster_step true "" true false =
        { createIssued := false, polled := true, exit := some 1 }) ∧
    (tryVoltSP_cluster_step false "" true true =
        { createIssued := true, polled := true, exit := none } ∧
      tryVoltSP_cluster_step false "" true false =
        { createIssued := true, polled := true, exit := some 1 }) :=
  ⟨c7_amended_cluster_step.1 "no" true true (by decide),
   c7_amended_cluster_step.2.1 "no" true true,
   c7_amended_cluster_step.2.2.1 "" true (by decide),
   c7_amended_cluster_step.2.2.2 ""⟩

/-- C8: in tryVoltSP.py, vwap_setup.py and vwap_loadgen_setup.py,
run_command on a nonzero-exit command terminates with sys.exit(1)
under exit_on_error=True and returns None under exit_on_error=False;
in voltsp_setup.py, however, the handler names the nonexistent
subprocess.CalledCalledProcessError, so the same situation raises
AttributeError out of run_command instead, for either value of
exit_on_error. -/
theorem c8_run_command_error_paths :
    ∀ r : CmdResult, r.exitCode ≠ 0 →
      run_command_tryVoltSP r true = .exited 1 ∧
      run_command_vwap_setup r true false = .exited 1 ∧
      run_command_vwap_setup r true true = .exited 1 ∧
      run_command_vwap_loadgen r true = .exited 1 ∧
      run_command_tryVoltSP r false = .returned none ∧
      run_command_vwap_setup r false false = .returned none ∧
      run_command_vwap_loadgen r false = .returned none ∧
      run_command_voltsp_setup r true = .raised "AttributeError" ∧
      run_command_voltsp_setup r false = .raised "AttributeError" := by
  intro r h
  simp [run_command_tryVoltSP, run_command_vwap_setup, run_command_vwap_loadgen,
        run_command_voltsp_setup, h]

/-- C8 witness: the failing input, a command that exits with status 1. -/
theorem c8_run_command_error_paths_witness :
    (CmdResult.mk 1 "" "").exitCode ≠ 0 ∧
    (run_command_tryVoltSP ⟨1, "", ""⟩ true = .exited 1 ∧
      run_command_vwap_setup ⟨1, "", ""⟩ true false = .exited 1 ∧
      run_command_vwap_setup ⟨1, "", ""⟩ true true = .exited 1 ∧
      run_command_vwap_loadgen ⟨1, "", ""⟩ true = .exited 1 ∧
      run_command_tryVoltSP ⟨1, "", ""⟩ false = .returned none ∧
      run_command_vwap_setup ⟨1, "", ""⟩ false false = .returned none ∧
      run_command_vwap_loadgen ⟨1, "", ""⟩ false = .returned none ∧
      run_command_voltsp_setup ⟨1, "", ""⟩ true = .raised "AttributeError" ∧
      run_command_voltsp_setup ⟨1, "", ""⟩ false = .raised "AttributeError") :=
  ⟨by decide, c8_run_command_error_paths ⟨1, "", ""⟩ (by decide)⟩

/-- C9: each temp-YAML try/finally block (the VoltSP values file, the
loadgen ConfigMap file, the namespace-overridden Job file) restores the
filesystem to its pre-block state — the temporary file is removed by
the finally clause — whatever the outcome of the body (normal
completion, sys.exit from a failed command, or a raised exception), and
the body outcome propagates; when the pre-creation phase of the Job
block (the yq command) exits, no file was created and that exit
propagates. -/
theorem c9_temp_files_always_removed :
    ∀ (fs : List String) (path : String) (body : BlockExit),
      voltsp_values_file_block fs path body = (fs, body) ∧
      loadgen_configmap_block fs path body = (fs, body) ∧
      loadgen_job_block fs path .normal body = (fs, body) ∧
      (∀ code, loadgen_job_block fs path (.exited code) body =
        (fs, .exited code)) ∧
      (∀ exc, loadgen_job_block fs path (.raised exc) body =
        (fs, .raised exc)) := by
  intro fs path body
  have hclean : finally_cleanup true path (path :: fs) = fs := by
    simp [finally_cleanup, os_path_exists, os_remove]
  have hnone : ∀ l : List String, finally_cleanup false path l = l := by
    intro l
    simp [finally_cleanup]
  refine ⟨?_, ?_, ?_, ?_, ?_⟩
  · simp [voltsp_values_file_block, temp_file_block, hclean]
  · simp [loadgen_configmap_block, temp_file_block, hclean]
  · simp [loadgen_job_block, temp_file_block, hclean]
  · intro code
    simp [loadgen_job_block, temp_file_block, hnone]
  · intro exc
    simp [loadgen_job_block, temp_file_block, hnone]

/-- C10: in the StatefulSet rollout-status retry loop of vwap_setup.py,
a failing attempt succeeds on a later retry only in the claim; in the
code every failure of the kubectl rollout status command (run with
capture_output=False, so e.stderr is None) raises TypeError when the
handler evaluates NotFound in e.stderr, instead of retrying or exiting
cleanly with status 1.  A run whose first attempt succeeds returns
success. -/
theorem c10_rollout_failure_raises_typeerror :
    vwap_rollout_loop (fun _ => false) = .raised "TypeError" ∧
    (∀ (attempt : Nat → Bool) (remaining i : Nat), attempt i = false →
        vwap_rollout_go attempt 5 (remaining + 1) i = .raised "TypeError") ∧
    (∀ attempt : Nat → Bool, attempt 0 = true →
        vwap_rollout_loop attempt = .success 1) := by
  refine ⟨by decide, ?_, ?_⟩
  · intro attempt remaining i h
    simp [vwap_rollout_go, h, py_in_opt_str]
  · intro attempt h
    simp [vwap_rollout_loop, vwap_rollout_go, h]

/-- C10 witness: the failing input — the rollout command fails on the
first attempt — and a first-attempt success. -/
theorem c10_rollout_failure_raises_typeerror_witness :
    vwap_rollout_go (fun _ => false) 5 5 0 = .raised "TypeError" ∧
    vwap_rollout_loop (fun _ => true) = .success 1 :=
  ⟨c10_rollout_failure_raises_typeerror.2.1 (fun _ => false) 4 0 rfl,
   c10_rollout_failure_raises_typeerror.2.2 (fun _ => true) rfl⟩

end TryVoltSP
